import Mathlib

/-!
Verification development for the `llm-paper-reviewer` repository.

The Python source is shallowly embedded: each Python function of interest
becomes a Lean definition over an explicit model of the Python/JSON values
it manipulates.  Exceptions are modelled with `Except PyExc`; functions
whose Python counterparts cannot raise return plain values.  Wall-clock
time, logging, hashing-based id regeneration and network I/O are not part
of any verified property and are abstracted: outcomes of provider calls
are passed in as explicit `Except` arguments.
-/

namespace PaperReviewer

/-- Exception classes relevant to the embedded code paths.  The first five
are Python built-ins, the rest are the classes declared in
`core/exceptions.py`. -/
inductive ExcKind where
  | typeError
  | keyError
  | attributeError
  | valueError
  | jsonDecodeError
  | paperAnalysisError
  | analysisConfigurationError
  | aiServiceError
  | paperParseError
  | validationError
  deriving DecidableEq

/-- A raised Python exception: its class and its `str(e)` message. -/
structure PyExc where
  kind : ExcKind
  msg : String
  deriving DecidableEq

/-- JSON values as produced by `json.loads`.  Numbers are restricted to
integers (no float appears in any property checked here). -/
inductive JsonVal where
  | null
  | bool (b : Bool)
  | num (n : Int)
  | str (s : String)
  | arr (xs : List JsonVal)
  | obj (kvs : List (String × JsonVal))

open JsonVal

/-- The opening brace character, kept out of literals. -/
def lbrace : Char := Char.ofNat 123

/-- The closing brace character, kept out of literals. -/
def rbrace : Char := Char.ofNat 125

/-- Python type name of a JSON value, as used in `TypeError` messages. -/
def pyTypeName : JsonVal → String
  | .null => "NoneType"
  | .bool _ => "bool"
  | .num _ => "int"
  | .str _ => "str"
  | .arr _ => "list"
  | .obj _ => "dict"

/-- Python truthiness of a JSON value. -/
def pyTruthy : JsonVal → Bool
  | .null => false
  | .bool b => b
  | .num n => n != 0
  | .str s => s != ""
  | .arr xs => !xs.isEmpty
  | .obj kvs => !kvs.isEmpty

mutual

/-- Python `repr` of a JSON value (string escaping inside `repr` is not
modelled; no verified property depends on it). -/
def pyRepr : JsonVal → String
  | .null => "None"
  | .bool b => if b then "True" else "False"
  | .num n => toString n
  | .str s => "'" ++ s ++ "'"
  | .arr xs => "[" ++ pyReprArrItems xs ++ "]"
  | .obj kvs => String.singleton lbrace ++ pyReprObjItems kvs ++ String.singleton rbrace

/-- Comma-joined `repr`s of list items. -/
def pyReprArrItems : List JsonVal → String
  | [] => ""
  | [x] => pyRepr x
  | x :: xs => pyRepr x ++ ", " ++ pyReprArrItems xs

/-- Comma-joined `repr`s of dict items. -/
def pyReprObjItems : List (String × JsonVal) → String
  | [] => ""
  | [kv] => "'" ++ kv.1 ++ "': " ++ pyRepr kv.2
  | kv :: kvs => "'" ++ kv.1 ++ "': " ++ pyRepr kv.2 ++ ", " ++ pyReprObjItems kvs

end

/-- Python `str()` of a JSON value. -/
def pyStr : JsonVal → String
  | .null => "None"
  | .bool b => if b then "True" else "False"
  | .num n => toString n
  | .str s => s
  | .arr xs => "[" ++ pyReprArrItems xs ++ "]"
  | .obj kvs => String.singleton lbrace ++ pyReprObjItems kvs ++ String.singleton rbrace

/-- Does the first list start with the second? -/
def startsWithList : List Char → List Char → Bool
  | _, [] => true
  | [], _ :: _ => false
  | h :: hs, n :: ns => h = n && startsWithList hs ns

/-- Is `needle` a contiguous sublist of the haystack? -/
def containsSubList (needle : List Char) : List Char → Bool
  | [] => needle.isEmpty
  | c :: t => startsWithList (c :: t) needle || containsSubList needle t

/-- Python substring test `k in s` for strings. -/
def pyStrContains (s k : String) : Bool :=
  containsSubList k.data s.data

/-- Python dict lookup (`d.get(k)` / `d[k]`); JSON objects may carry
duplicate keys in this embedding, and like `json.loads` the last
occurrence wins. -/
def pyDictGet (kvs : List (String × JsonVal)) (k : String) : Option JsonVal :=
  match kvs.reverse.find? (fun kv => kv.1 = k) with
  | some kv => some kv.2
  | none => none

/-- Python membership test `k in v` for a string `k`, raising `TypeError`
on non-iterable values exactly as Python does. -/
def pyIn (k : String) : JsonVal → Except PyExc Bool
  | .obj kvs => .ok (kvs.any (fun kv => kv.1 = k))
  | .arr xs => .ok (xs.any (fun x => match x with | .str s => s = k | _ => false))
  | .str s => .ok (pyStrContains s k)
  | v => .error ⟨.typeError, "argument of type '" ++ pyTypeName v ++ "' is not iterable"⟩

/-- Python subscript `v[k]` with a string key. -/
def pySubscript (v : JsonVal) (k : String) : Except PyExc JsonVal :=
  match v with
  | .obj kvs =>
    match pyDictGet kvs k with
    | some x => .ok x
    | none => .error ⟨.keyError, k⟩
  | .arr _ => .error ⟨.typeError, "list indices must be integers or slices, not str"⟩
  | .str _ => .error ⟨.typeError, "string indices must be integers"⟩
  | v => .error ⟨.typeError, "'" ++ pyTypeName v ++ "' object is not subscriptable"⟩

/-- Python slice `v[:n]`. -/
def pySliceTo (v : JsonVal) (n : Nat) : Except PyExc JsonVal :=
  match v with
  | .str s => .ok (.str (s.take n))
  | .arr xs => .ok (.arr (xs.take n))
  | v => .error ⟨.typeError, "'" ++ pyTypeName v ++ "' object is not subscriptable"⟩

/-- Python `v + t` for a string literal `t` on the right. -/
def pyAddStr (v : JsonVal) (t : String) : Except PyExc String :=
  match v with
  | .str s => .ok (s ++ t)
  | v => .error ⟨.typeError, "unsupported operand type(s) for +: '" ++ pyTypeName v ++ "' and 'str'"⟩

/-- Python `value or ""` for an optional string. -/
def pyOrEmpty : Option String → String
  | none => ""
  | some s => s

/-- Python `value or default` for an optional string (`None` and `""` both
fall through to the default). -/
def pyOrStr (v : Option String) (d : String) : String :=
  match v with
  | none => d
  | some s => if s = "" then d else s

end PaperReviewer

namespace PaperReviewer

/-- Skip JSON whitespace. -/
def skipWs : List Char → List Char
  | [] => []
  | c :: cs => if c = ' ' ∨ c = '\t' ∨ c = '\n' ∨ c = '\r' then skipWs cs else c :: cs

/-- Hexadecimal digit value. -/
def hexVal (c : Char) : Option Nat :=
  if '0' ≤ c ∧ c ≤ '9' then some (c.toNat - 48)
  else if 'a' ≤ c ∧ c ≤ 'f' then some (c.toNat - 87)
  else if 'A' ≤ c ∧ c ≤ 'F' then some (c.toNat - 55)
  else none

/-- Single-character JSON escapes. -/
def escChar (e : Char) : Option Char :=
  if e = '"' then some '"'
  else if e = '\\' then some '\\'
  else if e = '/' then some '/'
  else if e = 'n' then some '\n'
  else if e = 't' then some '\t'
  else if e = 'r' then some '\r'
  else if e = 'b' then some (Char.ofNat 8)
  else if e = 'f' then some (Char.ofNat 12)
  else none

/-- Parse the body of a JSON string after the opening quote. -/
def parseJStringBody : List Char → List Char → Option (String × List Char)
  | _, [] => none
  | acc, c :: cs =>
    if c = '"' then some (String.mk acc.reverse, cs)
    else if c = '\\' then
      match cs with
      | [] => none
      | e :: cs2 =>
        if e = 'u' then
          match cs2 with
          | h1 :: h2 :: h3 :: h4 :: cs3 =>
            match hexVal h1, hexVal h2, hexVal h3, hexVal h4 with
            | some v1, some v2, some v3, some v4 =>
              parseJStringBody (Char.ofNat (((v1 * 16 + v2) * 16 + v3) * 16 + v4) :: acc) cs3
            | _, _, _, _ => none
          | _ => none
        else
          match escChar e with
          | some ec => parseJStringBody (ec :: acc) cs2
          | none => none
    else parseJStringBody (c :: acc) cs

/-- Parse a JSON number (integers only; inputs with fractions or exponents
are outside this model). -/
def parseJNum (cs : List Char) : Option (JsonVal × List Char) :=
  let p := match cs with
    | c :: r => if c = '-' then (true, r) else (false, cs)
    | [] => (false, cs)
  let ds := p.2.takeWhile (·.isDigit)
  let rest := p.2.dropWhile (·.isDigit)
  if ds.isEmpty then none
  else if ds.length > 1 ∧ ds.headD '0' = '0' then none
  else
    match rest with
    | '.' :: _ => none
    | 'e' :: _ => none
    | 'E' :: _ => none
    | _ =>
      let n : Nat := ds.foldl (fun a c => a * 10 + (c.toNat - 48)) 0
      some (.num (if p.1 then -(n : Int) else (n : Int)), rest)

mutual

/-- Fuelled JSON value parser modelling Python `json.loads` (value part). -/
def parseJValue : Nat → List Char → Option (JsonVal × List Char)
  | 0, _ => none
  | fuel + 1, cs =>
    match skipWs cs with
    | 'n' :: 'u' :: 'l' :: 'l' :: rest => some (.null, rest)
    | 't' :: 'r' :: 'u' :: 'e' :: rest => some (.bool true, rest)
    | 'f' :: 'a' :: 'l' :: 's' :: 'e' :: rest => some (.bool false, rest)
    | '"' :: rest =>
      match parseJStringBody [] rest with
      | some (s, rest2) => some (.str s, rest2)
      | none => none
    | c :: rest =>
      if c = '[' then
        match skipWs rest with
        | ']' :: rest2 => some (.arr [], rest2)
        | r1 =>
          match parseJArrItems fuel r1 with
          | some (xs, rest2) => some (.arr xs, rest2)
          | none => none
      else if c = lbrace then
        let r1 := skipWs rest
        if r1.headD ' ' = rbrace then some (.obj [], r1.tail)
        else
          match parseJObjItems fuel r1 with
          | some (kvs, rest2) => some (.obj kvs, rest2)
          | none => none
      else parseJNum (c :: rest)
    | [] => none

/-- Comma-separated JSON array items, positioned at the first item. -/
def parseJArrItems : Nat → List Char → Option (List JsonVal × List Char)
  | 0, _ => none
  | fuel + 1, cs =>
    match parseJValue fuel cs with
    | none => none
    | some (v, rest) =>
      match skipWs rest with
      | ',' :: rest2 =>
        match parseJArrItems fuel rest2 with
        | some (vs, rest3) => some (v :: vs, rest3)
        | none => none
      | c :: rest2 => if c = ']' then some ([v], rest2) else none
      | [] => none

/-- Comma-separated JSON object members, positioned at the first key. -/
def parseJObjItems : Nat → List Char → Option (List (String × JsonVal) × List Char)
  | 0, _ => none
  | fuel + 1, cs =>
    match skipWs cs with
    | '"' :: rest =>
      match parseJStringBody [] rest with
      | none => none
      | some (k, rest2) =>
        match skipWs rest2 with
        | ':' :: rest3 =>
          match parseJValue fuel rest3 with
          | none => none
          | some (v, rest4) =>
            match skipWs rest4 with
            | ',' :: rest5 =>
              match parseJObjItems fuel rest5 with
              | some (kvs, rest6) => some ((k, v) :: kvs, rest6)
              | none => none
            | c :: rest5 => if c = rbrace then some ([(k, v)], rest5) else none
            | [] => none
        | _ => none
    | _ => none

end

/-- Model of Python `json.loads` on a whole string: parse one value and
require only trailing whitespace; `none` models `json.JSONDecodeError`. -/
def jsonLoads (s : String) : Option JsonVal :=
  match parseJValue (2 * s.length + 2) s.data with
  | some (v, rest) => if (skipWs rest).isEmpty then some v else none
  | none => none

/-- The span matched by the greedy regex used in
`_extract_json_from_text`: from the first opening brace to the last
closing brace, when the latter comes after the former. -/
def extractBraces (s : String) : Option String :=
  match s.data.findIdx? (· = lbrace), s.data.reverse.findIdx? (· = rbrace) with
  | some i, some k =>
    let j := s.data.length - 1 - k
    if i < j then some (String.mk ((s.data.drop i).take (j - i + 1))) else none
  | _, _ => none

/-- `AIAnalysisEngine._extract_json_from_text`
(`src/adapters/ai/ai_analysis_engine.py` 146-156): regex-extract a brace
span and JSON-parse it; any failure raises `ValueError`. -/
def _extract_json_from_text (text : String) : Except PyExc JsonVal :=
  match extractBraces text with
  | some sub =>
    match jsonLoads sub with
    | some v => .ok v
    | none => .error ⟨.valueError, "No valid JSON found in text"⟩
  | none => .error ⟨.valueError, "No valid JSON found in text"⟩

end PaperReviewer

namespace PaperReviewer

/-- ASCII whitespace stripped by Python `str.strip()` (further Unicode
whitespace is outside this model). -/
def isPyWs (c : Char) : Bool :=
  c = ' ' || c = '\t' || c = '\n' || c = '\r' || c = Char.ofNat 11 || c = Char.ofNat 12

/-- Python `s.strip()`. -/
def pyStrip (s : String) : String :=
  String.mk (((s.data.dropWhile isPyWs).reverse.dropWhile isPyWs).reverse)

/-- Python slice `s[:n]` on strings, by code point. -/
def strTake (s : String) (n : Nat) : String :=
  String.mk (s.data.take n)

/-- Python `s.endswith(suffix)`. -/
def strEndsWith (s suffix : String) : Bool :=
  startsWithList s.data.reverse suffix.data.reverse

/-- Split a character list at a separator character. -/
def splitOnChar (sep : Char) : List Char → List (List Char)
  | [] => [[]]
  | c :: cs =>
    let r := splitOnChar sep cs
    if c = sep then [] :: r
    else
      match r with
      | h :: t => (c :: h) :: t
      | [] => [[c]]

/-- Python `text.split(sep)` for a one-character separator; on the empty
string this yields `[""]`, as in Python. -/
def pySplitOn (s : String) (sep : Char) : List String :=
  (splitOnChar sep s.data).map String.mk

/-- A parsed-result mapping as built by the engine: Python dict from field
name to a string or `None`, encoded as an insertion-ordered association
list. -/
abbrev ResultDict := List (String × Option String)

/-- Dict lookup on a `ResultDict` (`k in d` / `d[k]` / `d.get k`); the
last binding wins, as for a Python dict built by repeated assignment. -/
def resGet (d : ResultDict) (k : String) : Option (Option String) :=
  match d.reverse.find? (fun kv => kv.1 = k) with
  | some kv => some kv.2
  | none => none

/-- The alias table of `_normalize_analysis_result`
(`src/adapters/ai/ai_analysis_engine.py` 161-169), including the
`field_mapping.get(field, [field])` default. -/
def field_mapping (field : String) : List String :=
  if field = "title" then ["title"]
  else if field = "summary" then ["summary", "paper_overview", "overview"]
  else if field = "problem" then ["problem", "research_problem", "challenge"]
  else if field = "solution" then ["solution", "methodology", "method", "approach"]
  else if field = "limitations" then ["limitations", "limitations_analysis", "weaknesses"]
  else if field = "key_contributions" then
    ["key_contributions", "contributions", "academic_contributions"]
  else if field = "research_significance" then
    ["research_significance", "significance", "impact"]
  else [field]

/-- Expected fields by schema version
(`src/adapters/ai/ai_analysis_engine.py` 174-176). -/
def expectedFields (prompt_version : String) : List String :=
  ["title", "summary", "problem", "solution", "limitations", "key_contributions"]
    ++ (if strEndsWith prompt_version "_2_0" then ["research_significance"] else [])

/-- `AIAnalysisEngine._generate_field_value`
(`src/adapters/ai/ai_analysis_engine.py` 194-210).  The title strategy
subscripts `r.get("summary", "")[:100]`, the summary strategy formats two
`r.get` results into an f-string; both call `.get`, so a non-dict `r`
raises `AttributeError`, and a non-sliceable summary value raises
`TypeError` — faithfully propagated here. -/
def _generate_field_value (field : String) (r : JsonVal) : Except PyExc (Option String) :=
  if field = "title" then
    match r with
    | .obj kvs =>
      match pyDictGet kvs "summary" with
      | some v =>
        if pyTruthy v then
          match pySliceTo v 100 with
          | .error e => .error e
          | .ok sl =>
            match pyAddStr sl "..." with
            | .error e => .error e
            | .ok s => .ok (some s)
        else .ok none
      | none => .ok none
    | _ => .error ⟨.attributeError, "'" ++ pyTypeName r ++ "' object has no attribute 'get'"⟩
  else if field = "summary" then
    match r with
    | .obj kvs =>
      .ok (some ("This paper addresses "
        ++ pyStr ((pyDictGet kvs "problem").getD (.str "a research challenge"))
        ++ " using "
        ++ pyStr ((pyDictGet kvs "solution").getD (.str "a novel approach")) ++ "."))
    | _ => .error ⟨.attributeError, "'" ++ pyTypeName r ++ "' object has no attribute 'get'"⟩
  else if field = "problem" then .ok (some "Research problem not explicitly stated.")
  else if field = "solution" then .ok (some "Solution approach not explicitly described.")
  else if field = "limitations" then .ok (some "Limitations not explicitly discussed.")
  else if field = "key_contributions" then .ok (some "Contributions not explicitly summarized.")
  else if field = "research_significance" then
    .ok (some "Research significance not explicitly stated.")
  else .ok none

/-- The inner alias loop of `_normalize_analysis_result`
(`src/adapters/ai/ai_analysis_engine.py` 180-184): first alias key that
is `in result` with a truthy value yields `str(result[key])`. -/
def aliasLoop (result : JsonVal) : List String → Except PyExc (Option String)
  | [] => .ok none
  | k :: rest =>
    match pyIn k result with
    | .error e => .error e
    | .ok b =>
      if b then
        match pySubscript result k with
        | .error e => .error e
        | .ok v => if pyTruthy v then .ok (some (pyStr v)) else aliasLoop result rest
      else aliasLoop result rest

/-- One iteration of the outer loop of `_normalize_analysis_result`
(`src/adapters/ai/ai_analysis_engine.py` 178-190): alias resolution,
`if not value` fallback generation, and the final `value or ""`. -/
def normalizeField (result : JsonVal) (field : String) : Except PyExc String :=
  match aliasLoop result (field_mapping field) with
  | .error e => .error e
  | .ok value =>
    let needGen := match value with
      | none => true
      | some s => s = ""
    if needGen then
      match _generate_field_value field result with
      | .error e => .error e
      | .ok gv => .ok (pyOrEmpty gv)
    else .ok (pyOrEmpty value)

/-- The outer loop of `_normalize_analysis_result`, building the
normalized dict in `expected_fields` order. -/
def normalizeFields (result : JsonVal) : List String → Except PyExc ResultDict
  | [] => .ok []
  | f :: fs =>
    match normalizeField result f with
    | .error e => .error e
    | .ok v =>
      match normalizeFields result fs with
      | .error e => .error e
      | .ok rest => .ok ((f, some v) :: rest)

/-- `AIAnalysisEngine._normalize_analysis_result`
(`src/adapters/ai/ai_analysis_engine.py` 158-192). -/
def _normalize_analysis_result (result : JsonVal) (prompt_version : String) :
    Except PyExc ResultDict :=
  normalizeFields result (expectedFields prompt_version)

/-- `AIAnalysisEngine._create_basic_result_from_text`
(`src/adapters/ai/ai_analysis_engine.py` 212-226). -/
def _create_basic_result_from_text (text : String) : ResultDict :=
  let lines := pySplitOn text '\n'
  let first_line := pyStrip (lines.headD "")
  [("title", some (if first_line ≠ "" then strTake first_line 100 else "Untitled")),
   ("summary", some (if text.length > 500 then strTake text 500 ++ "..." else text)),
   ("problem", some "Unable to extract specific problem statement"),
   ("solution", some "Unable to extract specific solution"),
   ("limitations", some "Unable to extract limitations"),
   ("key_contributions", some "Unable to extract contributions"),
   ("research_significance", none)]

/-- `AIAnalysisEngine._parse_analysis_result`
(`src/adapters/ai/ai_analysis_engine.py` 131-144).  Note the asymmetry
faithful to the source: on the strict-parse path only `JSONDecodeError`
is caught, so errors raised by normalization there propagate; on the
extraction path a bare `except Exception` absorbs them into the basic
result. -/
def _parse_analysis_result (result : String) (prompt_version : String) :
    Except PyExc ResultDict :=
  match jsonLoads result with
  | some parsed => _normalize_analysis_result parsed prompt_version
  | none =>
    match _extract_json_from_text result with
    | .ok json_data =>
      match _normalize_analysis_result json_data prompt_version with
      | .ok m => .ok m
      | .error _ => .ok (_create_basic_result_from_text result)
    | .error _ => .ok (_create_basic_result_from_text result)

/-- Field/weight table of `_calculate_confidence_score`
(`src/adapters/ai/ai_analysis_engine.py` 234-235). -/
def confidenceWeights : List (String × ℚ) :=
  [("title", 0.15), ("summary", 0.25), ("problem", 0.15),
   ("solution", 0.2), ("limitations", 0.1), ("key_contributions", 0.15)]

/-- The per-field guard of `_calculate_confidence_score`:
`field in result and result[field] and len(str(result[field])) > 20`. -/
def scorePasses (result : ResultDict) (field : String) : Bool :=
  match resGet result field with
  | some (some s) => s != "" && s.length > 20
  | _ => false

/-- The bonus guard of `_calculate_confidence_score`:
`'research_significance' in result and result['research_significance']`. -/
def rsBonus (result : ResultDict) : Bool :=
  match resGet result "research_significance" with
  | some (some s) => s != ""
  | _ => false

/-- One iteration of the `for field, weight in zip(fields, weights)` loop
of `_calculate_confidence_score`: the running `(score, total_weight)`
pair gains the weight in `score` only when the field passes the guard,
and always in `total_weight`. -/
def confStep (result : ResultDict) (acc : ℚ × ℚ) (fw : String × ℚ) : ℚ × ℚ :=
  (if scorePasses result fw.1 then acc.1 + fw.2 else acc.1, acc.2 + fw.2)

/-- `AIAnalysisEngine._calculate_confidence_score`
(`src/adapters/ai/ai_analysis_engine.py` 228-247), over exact rationals
in place of Python floats. -/
def _calculate_confidence_score (result : ResultDict) : ℚ :=
  let st := confidenceWeights.foldl (confStep result) (0, 0)
  let st2 := if rsBonus result then (st.1 + 0.1, st.2 + 0.1) else st
  if st2.2 > 0 then st2.1 / st2.2 else 0

end PaperReviewer

namespace PaperReviewer

/-- `AnalysisStatus` (`src/domain/models/analysis.py` 12-17). -/
inductive AnalysisStatus where
  | pending
  | in_progress
  | completed
  | failed
  deriving DecidableEq

/-- `PaperAnalysis` (`src/domain/models/analysis.py` 47-65).  The
wall-clock fields (`analysis_date`, `metrics`) and the `__post_init__`
id regeneration (an md5 of paper id + timestamp) are time-dependent and
not part of any verified property; they are omitted from the model. -/
structure PaperAnalysis where
  id : String
  paper_id : String
  title : String
  summary : String
  problem : String
  solution : String
  limitations : String
  key_contributions : String
  research_significance : Option String := none
  status : AnalysisStatus := .pending
  raw_response : Option String := none
  error_message : Option String := none
  prompt_version : String := "EN_2_0"
  model_used : String := ""
  deriving DecidableEq

/-- `PaperMetadata` (`src/domain/models/paper.py` 21-31), restricted to
the only field the analysis pipeline reads. -/
structure PaperMetadata where
  title : Option String := none
  deriving DecidableEq

/-- `Paper` (`src/domain/models/paper.py` 34-41), restricted to the
fields the analysis pipeline reads. -/
structure Paper where
  id : String
  file_path : String
  content : String
  metadata : PaperMetadata := {}
  deriving DecidableEq

/-- The failed-analysis constructor duplicated at
`src/core/analyzer.py` 53-64 and 104-129 and
`src/adapters/ai/ai_analysis_engine.py` 92-104: all three sites build
`PaperAnalysis(id="", paper_id=…, title="Analysis Failed", …,
status=FAILED, error_message=…)` with every text field empty. -/
def mkFailedAnalysis (paper_id : String) (error_message : String) : PaperAnalysis :=
  { id := ""
    paper_id := paper_id
    title := "Analysis Failed"
    summary := ""
    problem := ""
    solution := ""
    limitations := ""
    key_contributions := ""
    status := .failed
    error_message := some error_message }

/-- `AnalysisOrchestrator.analyze_paper` (`src/core/analyzer.py` 87-129)
as a function of the outcome of each engine call: `primary` is the
outcome of `primary_engine.analyze_paper(paper)`, and `fallback` is
`none` when no fallback engine is configured, otherwise the outcome of
`fallback_engine.analyze_paper(paper)` were it invoked.  The function is
total: the Python method catches every exception. -/
def orchestratorAnalyzePaper (paper_id : String)
    (primary : Except PyExc PaperAnalysis)
    (fallback : Option (Except PyExc PaperAnalysis)) : PaperAnalysis :=
  match primary with
  | .ok a => a
  | .error primary_error =>
    match fallback with
    | some (.ok fallback_result) =>
      { fallback_result with
        raw_response := some ("FALLBACK ANALYSIS (Primary failed: " ++ primary_error.msg
          ++ ")\n\n" ++ pyOrEmpty fallback_result.raw_response) }
    | some (.error fallback_error) =>
      mkFailedAnalysis paper_id
        ("Primary: " ++ primary_error.msg ++ ", Fallback: " ++ fallback_error.msg)
    | none => mkFailedAnalysis paper_id primary_error.msg

/-- The collection loop of `BaseAnalysisEngine.batch_analyze`
(`src/core/analyzer.py` 49-68), over the per-paper outcomes delivered by
`asyncio.gather(..., return_exceptions=True)` in input order.  In the
exception branch the source constructs a failed `PaperAnalysis` bound to
a local that is never appended to `processed_results`; the loop therefore
only accumulates the successful results. -/
def batchCollectEngine : List (Paper × Except PyExc PaperAnalysis) →
    List PaperAnalysis → List PaperAnalysis
  | [], processed_results => processed_results
  | (_, result) :: rest, processed_results =>
    match result with
    | .error _ => batchCollectEngine rest processed_results
    | .ok a => batchCollectEngine rest (processed_results ++ [a])

/-- `BaseAnalysisEngine.batch_analyze` (`src/core/analyzer.py` 43-68). -/
def batch_analyze (items : List (Paper × Except PyExc PaperAnalysis)) : List PaperAnalysis :=
  batchCollectEngine items []

/-- `Path(p).name`: the final path component. -/
def pathName (p : String) : String :=
  (pySplitOn p '/').getLastD ""

/-- The collection loop of `AnalysisCommands.batch_analyze_papers`
(`src/interfaces/cli/commands.py` 110-132): `enumerate` over the
gathered outcomes (in input order), replacing each raised exception by a
failed `PaperAnalysis` tagged with its index and source file, and
appending successful results unchanged. -/
def batchCollectCli (paper_files : List String)
    (results : List (Except PyExc PaperAnalysis)) : List PaperAnalysis :=
  results.enum.map (fun ir =>
    match ir.2 with
    | .ok a => a
    | .error e =>
      { id := "failed_" ++ toString ir.1
        paper_id := paper_files.getD ir.1 ""
        title := "Failed: " ++ pathName (paper_files.getD ir.1 "")
        summary := ""
        problem := ""
        solution := ""
        limitations := ""
        key_contributions := ""
        status := .failed
        error_message := some e.msg })

/-- `AIAnalysisEngine.analyze_paper`
(`src/adapters/ai/ai_analysis_engine.py` 33-104) as a function of the
outcome `gen` of `self._generate_analysis(...)`.  The whole body sits in
a `try` whose bare `except Exception` returns a failed analysis, so the
function is total; in particular an exception raised inside
`_parse_analysis_result` on the success path is also absorbed.  Metrics
(timing, token estimate, confidence) are wall-clock-bearing mutations of
the omitted `metrics` field. -/
def engineAnalyzePaper (paper : Paper) (prompt_version : String) (model : String)
    (gen : Except PyExc String) : PaperAnalysis :=
  match gen with
  | .error e => mkFailedAnalysis paper.id e.msg
  | .ok result =>
    match _parse_analysis_result result prompt_version with
    | .error e => mkFailedAnalysis paper.id e.msg
    | .ok parsed_result =>
      { id := ""
        paper_id := paper.id
        title :=
          match resGet parsed_result "title" with
          | some v => pyOrEmpty v
          | none => pyOrStr paper.metadata.title "Untitled Paper"
        summary := pyOrEmpty ((resGet parsed_result "summary").getD (some ""))
        problem := pyOrEmpty ((resGet parsed_result "problem").getD (some ""))
        solution := pyOrEmpty ((resGet parsed_result "solution").getD (some ""))
        limitations := pyOrEmpty ((resGet parsed_result "limitations").getD (some ""))
        key_contributions :=
          pyOrEmpty ((resGet parsed_result "key_contributions").getD (some ""))
        research_significance := ((resGet parsed_result "research_significance").getD none)
        status := .completed
        raw_response := some result
        prompt_version := prompt_version
        model_used := model }

/-- `BaseAIAdapter.validate_api_key` (`src/adapters/ai/base.py` 52-61). -/
def validate_api_key (api_key : String) : Bool :=
  if api_key = "" then false
  else if api_key.length < 10 then false
  else true

instance {ε α : Type} [DecidableEq ε] [DecidableEq α] : DecidableEq (Except ε α) := fun x y =>
  match x, y with
  | .ok a, .ok b => if h : a = b then .isTrue (by rw [h]) else .isFalse (by simp [h])
  | .ok _, .error _ => .isFalse (by simp)
  | .error _, .ok _ => .isFalse (by simp)
  | .error e, .error f => if h : e = f then .isTrue (by rw [h]) else .isFalse (by simp [h])

/-- Observable trace of one `with_retry` run: the returned value or the
exception finally raised, the number of calls made to the wrapped
operation, and the seconds slept between consecutive attempts. -/
structure RetryTrace where
  result : Except PyExc String
  calls : Nat
  sleeps : List Nat
  deriving DecidableEq

/-- The `for attempt in range(max_retries)` loop of
`BaseAIAdapter.with_retry` (`src/adapters/ai/base.py` 36-50), with `f`
giving the outcome of the wrapped call at each attempt index.  The
`remaining` counter drives the recursion; the final `raise last_error`
after the loop is only reachable when `max_retries ≤ 0`, where
`last_error` is still `None` and Python raises a `TypeError`. -/
def retryLoop (f : Nat → Except PyExc String) (max_retries : Nat) :
    Nat → Nat → Option PyExc → RetryTrace
  | 0, _, last_error =>
    ⟨.error (last_error.getD ⟨.typeError, "exceptions must derive from BaseException"⟩), 0, []⟩
  | remaining + 1, attempt, _ =>
    match f attempt with
    | .ok v => ⟨.ok v, 1, []⟩
    | .error e =>
      if attempt < max_retries - 1 then
        let rest := retryLoop f max_retries remaining (attempt + 1) (some e)
        ⟨rest.result, rest.calls + 1, 2 ^ attempt :: rest.sleeps⟩
      else ⟨.error e, 1, []⟩

/-- `BaseAIAdapter.with_retry` (`src/adapters/ai/base.py` 36-50). -/
def with_retry (max_retries : Nat) (f : Nat → Except PyExc String) : RetryTrace :=
  retryLoop f max_retries max_retries 0 none

/-- `self.max_retries = 3` in `BaseAIAdapter.__init__`
(`src/adapters/ai/base.py` 19). -/
def default_max_retries : Nat := 3

/-- Observable trace of one `DeepSeekAdapter.generate_response` call:
its outcome and how many provider requests were issued. -/
structure GenTrace where
  result : Except PyExc String
  provider_calls : Nat
  deriving DecidableEq

/-- `DeepSeekAdapter.generate_response`
(`src/adapters/ai/deepseek_adapter.py` 25-47): reject an invalid key
with `AIServiceError("Invalid API key")` before any provider request,
otherwise run the provider call (`client.chat.completions.create`
composed with `_extract_content`, whose attempt-wise outcomes are the
argument `provider`) under `with_retry`, wrapping any exception that
escapes as `AIServiceError("DeepSeek API error: …")`. -/
def generate_response (api_key : String) (provider : Nat → Except PyExc String) : GenTrace :=
  if !validate_api_key api_key then
    ⟨.error ⟨.aiServiceError, "Invalid API key"⟩, 0⟩
  else
    let t := with_retry default_max_retries provider
    match t.result with
    | .ok content => ⟨.ok content, t.calls⟩
    | .error e => ⟨.error ⟨.aiServiceError, "DeepSeek API error: " ++ e.msg⟩, t.calls⟩

end PaperReviewer

namespace PaperReviewer

/-- Claim C1 (refutation by evaluation): `_parse_analysis_result` is not
total and does not guarantee non-empty required fields.  On the valid
JSON input `"5"` the strict-parse path succeeds with the integer `5` and
the subsequent `"title" in result` raises a `TypeError` that no handler
catches; on a valid JSON object with neither `title` nor `summary`, the
normalized `title` is the empty string. -/
theorem c1_parse_analysis_result_not_total :
    _parse_analysis_result "5" "EN"
      = .error ⟨.typeError, "argument of type 'int' is not iterable"⟩ ∧
    _parse_analysis_result "\x7b\"problem\": \"x\"\x7d" "EN"
      = .ok [("title", some ""),
             ("summary", some "This paper addresses x using a novel approach."),
             ("problem", some "x"),
             ("solution", some "Solution approach not explicitly described."),
             ("limitations", some "Limitations not explicitly discussed."),
             ("key_contributions", some "Contributions not explicitly summarized.")] :=
  ⟨rfl, rfl⟩

/-- First paper of the two-paper batch exercising C3. -/
def c3paperOne : Paper := { id := "p1", file_path := "papers/a.pdf", content := "alpha" }

/-- Second paper of the two-paper batch exercising C3. -/
def c3paperTwo : Paper := { id := "p2", file_path := "papers/b.pdf", content := "beta" }

/-- The successful analysis of the second paper in the C3 batch. -/
def c3okAnalysis : PaperAnalysis :=
  { id := "a2", paper_id := "p2", title := "T", summary := "S", problem := "P",
    solution := "So", limitations := "L", key_contributions := "K", status := .completed }

/-- Claim C3 (refutation by evaluation): on a 2-item batch whose first
analysis raises, `BaseAnalysisEngine.batch_analyze` returns a 1-element
list — the failed item is silently dropped (the failed `PaperAnalysis`
it builds is never appended) — while the collection loop of
`AnalysisCommands.batch_analyze_papers` returns one result per input in
order, with the failed slot represented as a failed-status analysis. -/
theorem c3_engine_batch_drops_failed :
    batch_analyze
        [(c3paperOne, .error ⟨.aiServiceError, "boom"⟩), (c3paperTwo, .ok c3okAnalysis)]
      = [c3okAnalysis] ∧
    batchCollectCli ["papers/a.pdf", "papers/b.pdf"]
        [.error ⟨.aiServiceError, "boom"⟩, .ok c3okAnalysis]
      = [{ id := "failed_0", paper_id := "papers/a.pdf", title := "Failed: a.pdf",
           summary := "", problem := "", solution := "", limitations := "",
           key_contributions := "", status := .failed, error_message := some "boom" },
         c3okAnalysis] :=
  ⟨rfl, rfl⟩

/-- Stated from the spec sentence for C4: "first non-empty line
(truncated to 100 chars) becomes title". -/
def specBasicTitle (text : String) : Option String :=
  ((pySplitOn text '\n').find? (fun l => l ≠ "")).map (fun l => strTake l 100)

/-- Claim C4 counterexample: on the text `"\nHello"`, whose first line is
empty, the code titles the degraded result `"Untitled"`, while the
claimed rule (first non-empty line) yields `"Hello"`. -/
theorem c4_counterexample :
    resGet (_create_basic_result_from_text "\nHello") "title" = some (some "Untitled") ∧
    specBasicTitle "\nHello" = some "Hello" ∧
    ((some (some "Untitled") : Option (Option String)) ≠ some (some "Hello")) :=
  ⟨rfl, rfl, by decide⟩

/-- Claim C4 as amended: in the degraded result, `title` is the stripped
first line truncated to 100 characters — or `"Untitled"` when that first
line is empty after stripping; `summary` is the whole text when it has
at most 500 characters and otherwise its first 500 characters followed
by `"..."`; the four remaining analysis fields carry fixed
"Unable to extract …" placeholders; and `research_significance` is
`None`. -/
theorem c4_basic_result_fields (text : String) :
    resGet (_create_basic_result_from_text text) "title"
      = some (some (if pyStrip ((pySplitOn text '\n').headD "") ≠ "" then
          strTake (pyStrip ((pySplitOn text '\n').headD "")) 100 else "Untitled")) ∧
    resGet (_create_basic_result_from_text text) "summary"
      = some (some (if text.length > 500 then strTake text 500 ++ "..." else text)) ∧
    resGet (_create_basic_result_from_text text) "problem"
      = some (some "Unable to extract specific problem statement") ∧
    resGet (_create_basic_result_from_text text) "solution"
      = some (some "Unable to extract specific solution") ∧
    resGet (_create_basic_result_from_text text) "limitations"
      = some (some "Unable to extract limitations") ∧
    resGet (_create_basic_result_from_text text) "key_contributions"
      = some (some "Unable to extract contributions") ∧
    resGet (_create_basic_result_from_text text) "research_significance" = some none :=
  ⟨rfl, rfl, rfl, rfl, rfl, rfl, rfl⟩

/-- Claim C2: the two-attempt state machine of
`AnalysisOrchestrator.analyze_paper`.  The function is total (the Python
method catches every exception); a normal primary result is returned
unmodified; a primary failure without fallback yields a failed result
carrying the primary message; a primary failure with a successful
fallback yields the fallback result with its raw response prefixed by
the annotation naming the primary failure; a double failure yields a
failed result with both messages labelled. -/
theorem c2_orchestrator_state_machine (paper_id : String)
    (primary : Except PyExc PaperAnalysis)
    (fallback : Option (Except PyExc PaperAnalysis)) :
    (∀ a, primary = .ok a → orchestratorAnalyzePaper paper_id primary fallback = a) ∧
    (∀ pe, primary = .error pe → fallback = none →
      orchestratorAnalyzePaper paper_id primary fallback = mkFailedAnalysis paper_id pe.msg ∧
      (orchestratorAnalyzePaper paper_id primary fallback).status = .failed ∧
      (orchestratorAnalyzePaper paper_id primary fallback).error_message = some pe.msg) ∧
    (∀ pe fa, primary = .error pe → fallback = some (.ok fa) →
      orchestratorAnalyzePaper paper_id primary fallback =
        { fa with raw_response := some ("FALLBACK ANALYSIS (Primary failed: " ++ pe.msg
            ++ ")\n\n" ++ pyOrEmpty fa.raw_response) }) ∧
    (∀ pe fe, primary = .error pe → fallback = some (.error fe) →
      (orchestratorAnalyzePaper paper_id primary fallback).status = .failed ∧
      (orchestratorAnalyzePaper paper_id primary fallback).error_message =
        some ("Primary: " ++ pe.msg ++ ", Fallback: " ++ fe.msg)) := by
  refine ⟨?_, ?_, ?_, ?_⟩
  · intro a h
    subst h
    rfl
  · intro pe h1 h2
    subst h1
    subst h2
    exact ⟨rfl, rfl, rfl⟩
  · intro pe fa h1 h2
    subst h1
    subst h2
    rfl
  · intro pe fe h1 h2
    subst h1
    subst h2
    exact ⟨rfl, rfl⟩

/-- Claim C2 witness: concrete double-failure run. -/
theorem c2_orchestrator_state_machine_witness :
    (orchestratorAnalyzePaper "p" (.error ⟨.aiServiceError, "boom"⟩)
        (some (.error ⟨.aiServiceError, "bust"⟩))).status = .failed ∧
    (orchestratorAnalyzePaper "p" (.error ⟨.aiServiceError, "boom"⟩)
        (some (.error ⟨.aiServiceError, "bust"⟩))).error_message
      = some "Primary: boom, Fallback: bust" :=
  (c2_orchestrator_state_machine "p" (.error ⟨.aiServiceError, "boom"⟩)
      (some (.error ⟨.aiServiceError, "bust"⟩))).2.2.2
    ⟨.aiServiceError, "boom"⟩ ⟨.aiServiceError, "bust"⟩ rfl rfl

/-- Claim C10: `AIAnalysisEngine.analyze_paper` is total (modelled by its
plain `PaperAnalysis` return type); a generation failure, and equally a
parse failure on the success path, are converted into a returned
failed-status analysis carrying the error message; and the orchestrator
returns any normally returned engine result unmodified, independently of
the configured fallback — the fallback is not consulted. -/
theorem c10_engine_failure_as_data (paper : Paper) (pv model : String)
    (gen : Except PyExc String) (fallback : Option (Except PyExc PaperAnalysis)) :
    (∀ e, gen = .error e →
      (engineAnalyzePaper paper pv model gen).status = .failed ∧
      (engineAnalyzePaper paper pv model gen).error_message = some e.msg) ∧
    (∀ r e, gen = .ok r → _parse_analysis_result r pv = .error e →
      (engineAnalyzePaper paper pv model gen).status = .failed ∧
      (engineAnalyzePaper paper pv model gen).error_message = some e.msg) ∧
    orchestratorAnalyzePaper paper.id (.ok (engineAnalyzePaper paper pv model gen)) fallback
      = engineAnalyzePaper paper pv model gen := by
  refine ⟨?_, ?_, rfl⟩
  · intro e h
    subst h
    exact ⟨rfl, rfl⟩
  · intro r e hg hp
    subst hg
    simp only [engineAnalyzePaper, hp]
    exact ⟨rfl, rfl⟩

/-- Claim C10 witness: a failing generation on a concrete paper, with a
fallback configured, reaches the orchestrator as data and is returned
unmodified. -/
theorem c10_engine_failure_as_data_witness :
    (engineAnalyzePaper ⟨"p", "f.pdf", "c", {}⟩ "EN_2_0" "m"
        (.error ⟨.aiServiceError, "boom"⟩)).status = .failed ∧
    (engineAnalyzePaper ⟨"p", "f.pdf", "c", {}⟩ "EN_2_0" "m"
        (.error ⟨.aiServiceError, "boom"⟩)).error_message = some "boom" :=
  (c10_engine_failure_as_data ⟨"p", "f.pdf", "c", {}⟩ "EN_2_0" "m"
      (.error ⟨.aiServiceError, "boom"⟩) none).1
    ⟨.aiServiceError, "boom"⟩ rfl

/-- Claim C8 counterexample: with an empty credential, the DeepSeek
adapter's generation call fails before any provider request — but with
`AIServiceError` (the provider/service error class of
`core/exceptions.py`), not with the configuration-error class. -/
theorem c8_counterexample :
    generate_response "" (fun _ => .ok "x")
      = ⟨.error ⟨.aiServiceError, "Invalid API key"⟩, 0⟩ ∧
    ExcKind.aiServiceError ≠ ExcKind.analysisConfigurationError :=
  ⟨rfl, by decide⟩

/-- Claim C8 as amended: a credential is rejected by
`validate_api_key` exactly when it is empty or shorter than 10
characters, and in that case `generate_response` raises
`AIServiceError("Invalid API key")` with zero provider calls made. -/
theorem c8_invalid_key_rejected_locally (api_key : String)
    (provider : Nat → Except PyExc String) :
    (validate_api_key api_key = false ↔ (api_key = "" ∨ api_key.length < 10)) ∧
    (validate_api_key api_key = false →
      generate_response api_key provider
        = ⟨.error ⟨.aiServiceError, "Invalid API key"⟩, 0⟩) := by
  constructor
  · unfold validate_api_key
    split_ifs with h1 h2
    · simp [h1]
    · simp [h1, h2]
    · simp [h1, h2]
  · intro h
    unfold generate_response
    rw [h]
    rfl

/-- Claim C8 witness: the empty credential. -/
theorem c8_invalid_key_rejected_locally_witness :
    generate_response "" (fun _ => .ok "x")
      = ⟨.error ⟨.aiServiceError, "Invalid API key"⟩, 0⟩ :=
  (c8_invalid_key_rejected_locally "" (fun _ => .ok "x")).2 rfl

end PaperReviewer

namespace PaperReviewer

/-- Stated from the claim for C5: earned weight (weights of passing
fields plus the research-significance bonus) divided by the total weight
offered. -/
def specConfidence (result : ResultDict) : ℚ :=
  (((confidenceWeights.filter (fun fw => scorePasses result fw.1)).map (fun fw => fw.2)).sum
      + (if rsBonus result then 0.1 else 0))
    / ((confidenceWeights.map (fun fw => fw.2)).sum + (if rsBonus result then 0.1 else 0))

/-- The score component of the confidence fold is the initial score plus
the weights of the passing fields. -/
theorem confFold_fst (result : ResultDict) :
    ∀ (ws : List (String × ℚ)) (s t : ℚ),
      (ws.foldl (confStep result) (s, t)).1
        = s + ((ws.filter (fun fw => scorePasses result fw.1)).map (fun fw => fw.2)).sum := by
  intro ws
  induction ws with
  | nil => intro s t; simp
  | cons a l ih =>
    intro s t
    simp only [List.foldl_cons, List.filter_cons, confStep]
    cases hp : scorePasses result a.1
    · simp [hp, ih]
    · simp [hp, ih, add_assoc]

/-- The total-weight component of the confidence fold is the initial
total plus the sum of all weights. -/
theorem confFold_snd (result : ResultDict) :
    ∀ (ws : List (String × ℚ)) (s t : ℚ),
      (ws.foldl (confStep result) (s, t)).2 = t + (ws.map (fun fw => fw.2)).sum := by
  intro ws
  induction ws with
  | nil => intro s t; simp
  | cons a l ih =>
    intro s t
    simp only [List.foldl_cons, confStep]
    simp [ih, add_assoc]

/-- Sum of the weights of the passing fields is at most the sum of all
weights, for non-negative weights. -/
theorem filterWeightSum_le (result : ResultDict) :
    ∀ ws : List (String × ℚ), (∀ fw ∈ ws, 0 ≤ fw.2) →
      ((ws.filter (fun fw => scorePasses result fw.1)).map (fun fw => fw.2)).sum
        ≤ (ws.map (fun fw => fw.2)).sum := by
  intro ws
  induction ws with
  | nil => intro _; simp
  | cons a l ih =>
    intro h
    simp only [List.filter_cons, List.map_cons, List.sum_cons]
    have hl := ih (fun fw hw => h fw (List.mem_cons_of_mem a hw))
    cases hp : scorePasses result a.1
    · simp only [Bool.false_eq_true, if_false]
      calc ((l.filter (fun fw => scorePasses result fw.1)).map (fun fw => fw.2)).sum
          ≤ (l.map (fun fw => fw.2)).sum := hl
        _ ≤ a.2 + (l.map (fun fw => fw.2)).sum :=
            le_add_of_nonneg_left (h a (List.mem_cons_self a l))
    · simp only [if_true, List.map_cons, List.sum_cons]
      exact add_le_add_left hl a.2

/-- Sum of the weights of the passing fields is non-negative, for
non-negative weights. -/
theorem filterWeightSum_nonneg (result : ResultDict)
    (ws : List (String × ℚ)) (h : ∀ fw ∈ ws, 0 ≤ fw.2) :
    0 ≤ ((ws.filter (fun fw => scorePasses result fw.1)).map (fun fw => fw.2)).sum := by
  apply List.sum_nonneg
  intro x hx
  obtain ⟨fw, hfw, rfl⟩ := List.mem_map.mp hx
  exact h fw (List.mem_of_mem_filter hfw)

/-- The six weights sum to one. -/
theorem confidenceWeights_sum : ((confidenceWeights.map (fun fw => fw.2)).sum : ℚ) = 1 := by
  simp [confidenceWeights]
  norm_num

/-- The six weights are non-negative. -/
theorem confidenceWeights_nonneg : ∀ fw ∈ confidenceWeights, (0 : ℚ) ≤ fw.2 := by
  intro fw hfw
  fin_cases hfw <;> norm_num

/-- The embedded score equals the claimed earned-over-offered ratio. -/
theorem calc_conf_eq_spec (r : ResultDict) :
    _calculate_confidence_score r = specConfidence r := by
  have hf := confFold_fst r confidenceWeights 0 0
  have hs := confFold_snd r confidenceWeights 0 0
  norm_num at hf hs
  cases hb : rsBonus r <;>
    simp [_calculate_confidence_score, specConfidence, hb, hf, hs, confidenceWeights_sum]
  all_goals norm_num

end PaperReviewer

namespace PaperReviewer

/-- A result with all six scored fields longer than 20 characters and a
non-empty `research_significance`. -/
def c5AllFields : ResultDict :=
  [("title", some "abcdefghijklmnopqrstuvwxyz"),
   ("summary", some "abcdefghijklmnopqrstuvwxyz"),
   ("problem", some "abcdefghijklmnopqrstuvwxyz"),
   ("solution", some "abcdefghijklmnopqrstuvwxyz"),
   ("limitations", some "abcdefghijklmnopqrstuvwxyz"),
   ("key_contributions", some "abcdefghijklmnopqrstuvwxyz"),
   ("research_significance", some "impactful")]

/-- Claim C5: the confidence score equals the sum of the weights of the
fields present with string length above 20, plus the 0.1 bonus when
`research_significance` is present and non-empty, divided by the total
weight offered; it always lies in `[0, 1]`; a result with all six fields
long enough and `research_significance` present scores exactly 1; the
empty result scores 0. -/
theorem c5_confidence_score (result : ResultDict) :
    _calculate_confidence_score result = specConfidence result ∧
    0 ≤ _calculate_confidence_score result ∧
    _calculate_confidence_score result ≤ 1 ∧
    _calculate_confidence_score c5AllFields = 1 ∧
    _calculate_confidence_score ([] : ResultDict) = 0 := by
  have hF0 := filterWeightSum_nonneg result confidenceWeights confidenceWeights_nonneg
  have hF1 := filterWeightSum_le result confidenceWeights confidenceWeights_nonneg
  rw [confidenceWeights_sum] at hF1
  refine ⟨calc_conf_eq_spec result, ?_, ?_, ?_, ?_⟩
  · rw [calc_conf_eq_spec]
    unfold specConfidence
    rw [confidenceWeights_sum]
    cases hb : rsBonus result
    · simp only [Bool.false_eq_true, if_false, add_zero]
      exact div_nonneg hF0 (by norm_num)
    · simp only [if_true]
      exact div_nonneg (by linarith) (by norm_num)
  · rw [calc_conf_eq_spec]
    unfold specConfidence
    rw [confidenceWeights_sum]
    cases hb : rsBonus result
    · simp only [Bool.false_eq_true, if_false, add_zero]
      rw [div_le_one (by norm_num)]
      exact hF1
    · simp only [if_true]
      rw [div_le_one (by norm_num)]
      linarith
  · rw [calc_conf_eq_spec]
    have hfilter :
        confidenceWeights.filter (fun fw => scorePasses c5AllFields fw.1)
          = confidenceWeights := rfl
    have hrs : rsBonus c5AllFields = true := rfl
    simp [specConfidence, hfilter, hrs, confidenceWeights_sum]
    norm_num
  · rw [calc_conf_eq_spec]
    have hfilter :
        confidenceWeights.filter (fun fw => scorePasses ([] : ResultDict) fw.1) = [] := rfl
    have hrs : rsBonus ([] : ResultDict) = false := rfl
    simp [specConfidence, hfilter, hrs, confidenceWeights_sum]

end PaperReviewer

namespace PaperReviewer

/-- Characterization of `retryLoop` on its reachable instances
(`attempt + remaining = max_retries`): call count bounded by the
remaining attempts, at least one call when attempts remain, backoff
sleeps of `2 ^ attempt` seconds between consecutive attempts, first
success returned, and the last error re-raised after exhaustion. -/
theorem retryLoop_spec (f : Nat → Except PyExc String) (m : Nat) :
    ∀ (r : Nat), ∀ (a : Nat) (le : Option PyExc), a + r = m →
      ((retryLoop f m r a le).calls ≤ r) ∧
      (0 < r → 1 ≤ (retryLoop f m r a le).calls) ∧
      ((retryLoop f m r a le).sleeps
        = (List.range ((retryLoop f m r a le).calls - 1)).map (fun i => 2 ^ (a + i))) ∧
      (∀ k v, a ≤ k → k < m → f k = .ok v →
        (∀ j, a ≤ j → j < k → ∃ e, f j = .error e) →
        (retryLoop f m r a le).result = .ok v ∧ (retryLoop f m r a le).calls = k + 1 - a) ∧
      ((∀ j, a ≤ j → j < m → ∃ e, f j = .error e) → 0 < r →
        ∃ e, f (m - 1) = .error e ∧ (retryLoop f m r a le).result = .error e ∧
          (retryLoop f m r a le).calls = r) := by
  intro r
  induction r with
  | zero =>
    intro a le har
    refine ⟨Nat.le_refl 0, by omega, by simp [retryLoop], ?_, by omega⟩
    intro k v hak hkm _ _
    omega
  | succ n ih =>
    intro a le har
    cases hfa : f a with
    | ok v =>
      have hunf : retryLoop f m (n + 1) a le = ⟨.ok v, 1, []⟩ := by
        simp [retryLoop, hfa]
      rw [hunf]
      dsimp only
      refine ⟨by omega, by omega, by simp, ?_, ?_⟩
      · intro k v' hak hkm hfk herr
        rcases Nat.eq_or_lt_of_le hak with h | h
        · subst h
          rw [hfa] at hfk
          cases hfk
          exact ⟨rfl, by omega⟩
        · obtain ⟨e, he⟩ := herr a (Nat.le_refl a) h
          rw [hfa] at he
          cases he
      · intro herr _
        obtain ⟨e, he⟩ := herr a (Nat.le_refl a) (by omega)
        rw [hfa] at he
        cases he
    | error e =>
      by_cases hc : a < m - 1
      · have hn1 : 1 ≤ n := by omega
        obtain ⟨ih1, ih2, ih3, ih4, ih5⟩ := ih (a + 1) (some e) (by omega)
        have hunf : retryLoop f m (n + 1) a le =
            ⟨(retryLoop f m n (a + 1) (some e)).result,
             (retryLoop f m n (a + 1) (some e)).calls + 1,
             2 ^ a :: (retryLoop f m n (a + 1) (some e)).sleeps⟩ := by
          simp [retryLoop, hfa, hc]
        rw [hunf]
        dsimp only
        have hc1 := ih2 (by omega)
        refine ⟨by omega, by omega, ?_, ?_, ?_⟩
        · obtain ⟨c, hcc⟩ : ∃ c, (retryLoop f m n (a + 1) (some e)).calls = c + 1 :=
            ⟨(retryLoop f m n (a + 1) (some e)).calls - 1, by omega⟩
          rw [hcc] at ih3
          simp only [hcc, Nat.add_sub_cancel]
          rw [ih3, List.range_succ_eq_map, List.map_cons, List.map_map]
          have harr : ((fun i => 2 ^ (a + i)) ∘ Nat.succ) = (fun i => 2 ^ (a + 1 + i)) := by
            funext i
            simp only [Function.comp_apply]
            congr 1
            omega
          rw [harr]
          simp
        · intro k v hak hkm hfk herr
          have hka : a < k := by
            rcases Nat.eq_or_lt_of_le hak with h | h
            · subst h
              rw [hfa] at hfk
              cases hfk
            · exact h
          obtain ⟨hres, hcalls⟩ :=
            ih4 k v (by omega) hkm hfk (fun j hj1 hj2 => herr j (by omega) hj2)
          exact ⟨hres, by omega⟩
        · intro herr _
          obtain ⟨e', hfm, hres, hcalls⟩ :=
            ih5 (fun j hj1 hj2 => herr j (by omega) hj2) (by omega)
          exact ⟨e', hfm, hres, by omega⟩
      · have hunf : retryLoop f m (n + 1) a le = ⟨.error e, 1, []⟩ := by
          simp [retryLoop, hfa, hc]
        rw [hunf]
        dsimp only
        refine ⟨by omega, by omega, by simp, ?_, ?_⟩
        · intro k v hak hkm hfk _
          have : k = a := by omega
          subst this
          rw [hfa] at hfk
          cases hfk
        · intro herr _
          have hma : m - 1 = a := by omega
          refine ⟨e, ?_, rfl, by omega⟩
          rw [hma]
          exact hfa

/-- Claim C7: `with_retry` makes at most `max_retries` calls (the
configured bound, `3` by default from `BaseAIAdapter.__init__`), sleeps
`2 ^ attempt` seconds between consecutive attempts, returns the first
successful result, and re-raises the final error only after the bound is
exhausted. -/
theorem c7_with_retry (max_retries : Nat) (f : Nat → Except PyExc String) :
    default_max_retries = 3 ∧
    (with_retry max_retries f).calls ≤ max_retries ∧
    (with_retry max_retries f).sleeps
      = (List.range ((with_retry max_retries f).calls - 1)).map (fun i => 2 ^ i) ∧
    (∀ k v, k < max_retries → f k = .ok v → (∀ j, j < k → ∃ e, f j = .error e) →
      (with_retry max_retries f).result = .ok v ∧
      (with_retry max_retries f).calls = k + 1) ∧
    ((∀ j, j < max_retries → ∃ e, f j = .error e) → 0 < max_retries →
      ∃ e, f (max_retries - 1) = .error e ∧
        (with_retry max_retries f).result = .error e ∧
        (with_retry max_retries f).calls = max_retries) := by
  unfold with_retry
  obtain ⟨h1, _, h3, h4, h5⟩ :=
    retryLoop_spec f max_retries max_retries 0 none (by omega)
  refine ⟨rfl, h1, ?_, ?_, ?_⟩
  · simpa using h3
  · intro k v hk hfk herr
    obtain ⟨hres, hcalls⟩ :=
      h4 k v (Nat.zero_le k) hk hfk (fun j _ hj => herr j hj)
    exact ⟨hres, by omega⟩
  · intro herr hpos
    exact h5 (fun j _ hj => herr j hj) hpos

/-- Claim C7 witness: three failing attempts with the default bound. -/
theorem c7_with_retry_witness :
    ∃ e, (fun _ => (Except.error ⟨ExcKind.aiServiceError, "t"⟩ : Except PyExc String)) (3 - 1)
        = .error e ∧
      (with_retry 3 (fun _ => .error ⟨.aiServiceError, "t"⟩)).result = .error e ∧
      (with_retry 3 (fun _ => .error ⟨.aiServiceError, "t"⟩)).calls = 3 :=
  (c7_with_retry 3 (fun _ => .error ⟨.aiServiceError, "t"⟩)).2.2.2.2
    (fun _ _ => ⟨⟨.aiServiceError, "t"⟩, rfl⟩) (by norm_num)

end PaperReviewer


namespace PaperReviewer

/-- Stated from the spec for C6: "for each canonical field, search a
priority-ordered list of accepted alias keys …; take the first present
non-empty value". -/
def spec_alias_value (kvs : List (String × JsonVal)) : List String → Option String
  | [] => none
  | k :: rest =>
    match pyDictGet kvs k with
    | some (.str v) => if v = "" then spec_alias_value kvs rest else some v
    | _ => spec_alias_value kvs rest

/-- A value delivered by `spec_alias_value` is non-empty. -/
theorem spec_alias_value_ne_empty (kvs : List (String × JsonVal)) :
    ∀ (as : List String) (v : String), spec_alias_value kvs as = some v → v ≠ "" := by
  intro as
  induction as with
  | nil => intro v h; cases h
  | cons k rest ih =>
    intro v h
    unfold spec_alias_value at h
    split at h
    · split at h
      · exact ih v h
      · next hne =>
        cases h
        exact hne
    · exact ih v h

/-- A key is `any`-present among the pairs iff `pyDictGet` finds it. -/
theorem any_key_iff_get (kvs : List (String × JsonVal)) (k : String) :
    kvs.any (fun kv => kv.1 = k) = true ↔ ∃ v, pyDictGet kvs k = some v := by
  unfold pyDictGet
  cases hf : kvs.reverse.find? (fun kv => kv.1 = k) with
  | none =>
    rw [List.find?_eq_none] at hf
    constructor
    · intro h
      obtain ⟨kv, hm, hp⟩ := List.any_eq_true.mp h
      exact absurd hp (hf kv (List.mem_reverse.mpr hm))
    · rintro ⟨v, hv⟩
      cases hv
  | some kv =>
    constructor
    · intro _
      exact ⟨kv.2, rfl⟩
    · intro _
      have hp := List.find?_some hf
      have hm := List.mem_reverse.mp (List.mem_of_find?_eq_some hf)
      exact List.any_eq_true.mpr ⟨kv, hm, hp⟩

/-- On a dict whose values are all strings, any found value is a string. -/
theorem pyDictGet_val_str (kvs : List (String × JsonVal))
    (hstr : ∀ kv ∈ kvs, ∃ s, kv.2 = JsonVal.str s) (k : String) (v : JsonVal)
    (h : pyDictGet kvs k = some v) : ∃ s, v = JsonVal.str s := by
  unfold pyDictGet at h
  cases hf : kvs.reverse.find? (fun kv => kv.1 = k) with
  | none =>
    rw [hf] at h
    cases h
  | some kv =>
    rw [hf] at h
    cases h
    exact hstr kv (List.mem_reverse.mp (List.mem_of_find?_eq_some hf))

/-- On a dict whose values are all strings, the source's alias loop
computes exactly the spec's "first present non-empty value". -/
theorem aliasLoop_obj_str (kvs : List (String × JsonVal))
    (hstr : ∀ kv ∈ kvs, ∃ s, kv.2 = JsonVal.str s) :
    ∀ as : List String, aliasLoop (.obj kvs) as = .ok (spec_alias_value kvs as) := by
  intro as
  induction as with
  | nil => rfl
  | cons k rest ih =>
    unfold aliasLoop
    simp only [pyIn]
    cases hany : kvs.any (fun kv => kv.1 = k) with
    | false =>
      have hget : pyDictGet kvs k = none := by
        cases hget : pyDictGet kvs k with
        | none => rfl
        | some v =>
          rw [(any_key_iff_get kvs k).mpr ⟨v, hget⟩] at hany
          cases hany
      have hspec : spec_alias_value kvs (k :: rest) = spec_alias_value kvs rest := by
        simp only [spec_alias_value]
        rw [hget]
      rw [hspec]
      simp only [Bool.false_eq_true, if_false]
      exact ih
    | true =>
      obtain ⟨v, hget⟩ := (any_key_iff_get kvs k).mp hany
      obtain ⟨s, rfl⟩ := pyDictGet_val_str kvs hstr k v hget
      have hspec : spec_alias_value kvs (k :: rest)
          = if s = "" then spec_alias_value kvs rest else some s := by
        simp only [spec_alias_value]
        rw [hget]
      rw [hspec]
      simp only [if_true, pySubscript, hget]
      by_cases hs : s = ""
      · subst hs
        simp [pyTruthy, ih]
      · simp [pyTruthy, pyStr, hs]

/-- `_generate_field_value` cannot raise on a dict whose values are all
strings. -/
theorem generate_field_value_obj_ok (kvs : List (String × JsonVal))
    (hstr : ∀ kv ∈ kvs, ∃ s, kv.2 = JsonVal.str s) (field : String) :
    ∃ gv, _generate_field_value field (.obj kvs) = .ok gv := by
  unfold _generate_field_value
  split_ifs
  · cases hget : pyDictGet kvs "summary" with
    | none => exact ⟨none, by simp [hget]⟩
    | some v =>
      obtain ⟨s, rfl⟩ := pyDictGet_val_str kvs hstr "summary" v hget
      by_cases hs : s = ""
      · subst hs
        exact ⟨none, by simp [hget, pyTruthy]⟩
      · refine ⟨some (s.take 100 ++ "..."), ?_⟩
        simp [hget, pyTruthy, hs, pySliceTo, pyAddStr]
  · exact ⟨_, rfl⟩
  · exact ⟨_, rfl⟩
  · exact ⟨_, rfl⟩
  · exact ⟨_, rfl⟩
  · exact ⟨_, rfl⟩
  · exact ⟨_, rfl⟩
  · exact ⟨none, rfl⟩

/-- On a dict whose values are all strings, one normalization step
resolves to the spec's first present non-empty alias value, falling back
to the generated value (then `or ""`). -/
theorem normalizeField_obj (kvs : List (String × JsonVal))
    (hstr : ∀ kv ∈ kvs, ∃ s, kv.2 = JsonVal.str s) (field : String) :
    ∃ gv, _generate_field_value field (.obj kvs) = .ok gv ∧
      normalizeField (.obj kvs) field
        = .ok (match spec_alias_value kvs (field_mapping field) with
               | some v => v
               | none => pyOrEmpty gv) := by
  obtain ⟨gv, hgv⟩ := generate_field_value_obj_ok kvs hstr field
  refine ⟨gv, hgv, ?_⟩
  unfold normalizeField
  rw [aliasLoop_obj_str kvs hstr]
  cases hsp : spec_alias_value kvs (field_mapping field) with
  | none => simp [hgv]
  | some v =>
    have hne := spec_alias_value_ne_empty kvs (field_mapping field) v hsp
    simp [hne, pyOrEmpty]

end PaperReviewer

namespace PaperReviewer

/-- The normalized dict binds exactly the expected fields, in order. -/
theorem normalizeFields_keys (result : JsonVal) :
    ∀ (fs : List String) (m : ResultDict), normalizeFields result fs = .ok m →
      m.map (fun kv => kv.1) = fs := by
  intro fs
  induction fs with
  | nil =>
    intro m h
    injection h with h'
    subst h'
    rfl
  | cons f fsrest ih =>
    intro m h
    unfold normalizeFields at h
    cases hnf : normalizeField result f with
    | error e =>
      simp only [hnf] at h
      exact Except.noConfusion h
    | ok v =>
      simp only [hnf] at h
      cases hns : normalizeFields result fsrest with
      | error e =>
        simp only [hns] at h
        exact Except.noConfusion h
      | ok m' =>
        simp only [hns, Except.ok.injEq] at h
        subst h
        simp [ih m' hns]

/-- Looking a field up in the normalized dict yields exactly the value
produced by its normalization step. -/
theorem resGet_of_normalizeFields (result : JsonVal) :
    ∀ (fs : List String) (m : ResultDict), normalizeFields result fs = .ok m →
      ∀ f, f ∈ fs →
        ∃ v, normalizeField result f = .ok v ∧ resGet m f = some (some v) := by
  intro fs
  induction fs with
  | nil =>
    intro m _ f hf
    cases hf
  | cons g fsrest ih =>
    intro m h f hf
    unfold normalizeFields at h
    cases hng : normalizeField result g with
    | error e =>
      simp only [hng] at h
      exact Except.noConfusion h
    | ok vg =>
      simp only [hng] at h
      cases hns : normalizeFields result fsrest with
      | error e =>
        simp only [hns] at h
        exact Except.noConfusion h
      | ok m' =>
        simp only [hns, Except.ok.injEq] at h
        subst h
        by_cases hfr : f ∈ fsrest
        · obtain ⟨v, hv, hres⟩ := ih m' hns f hfr
          refine ⟨v, hv, ?_⟩
          unfold resGet at hres ⊢
          rw [List.reverse_cons, List.find?_append]
          cases hfind : m'.reverse.find? (fun kv => kv.1 = f) with
          | none =>
            rw [hfind] at hres
            cases hres
          | some kv =>
            rw [hfind] at hres
            exact hres
        · have hfg : f = g := by
            rcases List.mem_cons.mp hf with h1 | h1
            · exact h1
            · exact absurd h1 hfr
          subst hfg
          refine ⟨vg, hng, ?_⟩
          have hkeys := normalizeFields_keys result fsrest m' hns
          have hnone : m'.reverse.find? (fun kv => kv.1 = f) = none := by
            rw [List.find?_eq_none]
            intro kv hkv
            simp only [decide_eq_true_eq]
            intro heq
            apply hfr
            rw [← hkeys]
            exact List.mem_map.mpr ⟨kv, List.mem_reverse.mp hkv, heq⟩
          unfold resGet
          rw [List.reverse_cons, List.find?_append, hnone, Option.none_or]
          simp [List.find?]

/-- Normalization cannot raise on a dict whose values are all strings. -/
theorem normalizeFields_obj_ok (kvs : List (String × JsonVal))
    (hstr : ∀ kv ∈ kvs, ∃ s, kv.2 = JsonVal.str s) :
    ∀ fs : List String, ∃ m, normalizeFields (.obj kvs) fs = .ok m := by
  intro fs
  induction fs with
  | nil => exact ⟨[], rfl⟩
  | cons f rest ih =>
    obtain ⟨gv, _, hnf⟩ := normalizeField_obj kvs hstr f
    obtain ⟨m', hm'⟩ := ih
    refine ⟨(f, some (match spec_alias_value kvs (field_mapping f) with
      | some v => v
      | none => pyOrEmpty gv)) :: m', ?_⟩
    unfold normalizeFields
    rw [hnf, hm']

/-- Claim C6 counterexample: the claim quantifies over every parsed
dict, but on `{"summary": 5}` no `title` alias matches and, instead of
synthesizing the per-field title fallback, normalization raises — the
fallback strategy slices the integer (`r.get("summary", "")[:100]`) and
the `TypeError` propagates out of `_normalize_analysis_result`. -/
theorem c6_counterexample :
    _normalize_analysis_result (.obj [("summary", JsonVal.num 5)]) "EN"
      = .error ⟨.typeError, "'int' object is not subscriptable"⟩ ∧
    _generate_field_value "title" (.obj [("summary", JsonVal.num 5)])
      = .error ⟨.typeError, "'int' object is not subscriptable"⟩ :=
  ⟨rfl, rfl⟩

/-- Claim C6 as amended: restricted to parsed dicts whose values are all
strings (on non-string values the fallback synthesis can raise, see the
counterexample), every expected field of the normalized result is the
first present non-empty value among its priority-ordered alias keys,
falling back to `_generate_field_value`'s synthesized value (then
`or ""`) when no alias matches; in particular `{"paper_overview": "X"}`
normalizes `summary` to `"X"`, and `{}` with a version not ending
`_2_0` normalizes `problem` to the literal fallback sentence. -/
theorem c6_alias_resolution :
    (∀ (kvs : List (String × JsonVal)) (ver field : String),
      (∀ kv ∈ kvs, ∃ s, kv.2 = JsonVal.str s) → field ∈ expectedFields ver →
      ∃ m gv, _normalize_analysis_result (.obj kvs) ver = .ok m ∧
        _generate_field_value field (.obj kvs) = .ok gv ∧
        resGet m field
          = some (some (match spec_alias_value kvs (field_mapping field) with
              | some v => v
              | none => pyOrEmpty gv))) ∧
    (∃ m, _normalize_analysis_result (.obj [("paper_overview", .str "X")]) "EN" = .ok m ∧
      resGet m "summary" = some (some "X")) ∧
    (∃ m, _normalize_analysis_result (.obj []) "EN" = .ok m ∧
      resGet m "problem" = some (some "Research problem not explicitly stated.")) := by
  refine ⟨?_, ⟨_, rfl, rfl⟩, ⟨_, rfl, rfl⟩⟩
  intro kvs ver field hstr hf
  obtain ⟨m, hm⟩ := normalizeFields_obj_ok kvs hstr (expectedFields ver)
  obtain ⟨v, hv, hres⟩ := resGet_of_normalizeFields (.obj kvs) (expectedFields ver) m hm field hf
  obtain ⟨gv, hgv, hnf⟩ := normalizeField_obj kvs hstr field
  rw [hv] at hnf
  injection hnf with h'
  refine ⟨m, gv, hm, hgv, ?_⟩
  rw [hres, h']

/-- Claim C6 witness: the `paper_overview` alias resolving `summary`. -/
theorem c6_alias_resolution_witness :
    ∃ m gv,
      _normalize_analysis_result (.obj [("paper_overview", JsonVal.str "X")]) "EN" = .ok m ∧
      _generate_field_value "summary" (.obj [("paper_overview", JsonVal.str "X")]) = .ok gv ∧
      resGet m "summary"
        = some (some (match spec_alias_value [("paper_overview", JsonVal.str "X")]
              (field_mapping "summary") with
            | some v => v
            | none => pyOrEmpty gv)) :=
  c6_alias_resolution.1 [("paper_overview", JsonVal.str "X")] "EN" "summary"
    (by
      intro kv hkv
      simp only [List.mem_singleton] at hkv
      subst hkv
      exact ⟨"X", rfl⟩)
    (by decide)

end PaperReviewer
